import Mathlib

/-!
Verification of the compas_cem core against its specification.

This file gives a shallow embedding of the parts of the code the claims
talk about: the geometry primitives consumed from the compas geometry
layer (modelled over the reals), the PlaneGoal of
src/compas_cem/optimization/goals/plane.py, the numpy objective wrapper of
src/compas_cem/optimization/objective_func.py, and the Diagram attribute
store of src/compas_cem/diagrams/diagram.py (modelled over the rationals,
so that concrete instances evaluate). Floating point arithmetic is
idealised as exact real/rational arithmetic throughout.
-/

/-- Points and vectors of the geometry layer: xyz triples of reals. -/
abbrev Point3 : Type := ℝ × ℝ × ℝ

/-- A plane as consumed by the plane goal: a base point and a normal vector. -/
abbrev Plane3 : Type := Point3 × Point3

/-- Dot product of two xyz triples. -/
def dot3 (u v : Point3) : ℝ := u.1 * v.1 + u.2.1 * v.2.1 + u.2.2 * v.2.2

/-- Componentwise difference of two xyz triples. -/
def sub3 (u v : Point3) : Point3 := (u.1 - v.1, u.2.1 - v.2.1, u.2.2 - v.2.2)

/-- compas.geometry.length_vector: the Euclidean norm of a vector. -/
noncomputable def length_vector (v : Point3) : ℝ := Real.sqrt (dot3 v v)

/-- compas.geometry.normalize_vector: divide every component by the length.
For the zero vector the compas source returns the vector unchanged, which
agrees with the total division below (0 / 0 = 0). -/
noncomputable def normalize_vector (v : Point3) : Point3 :=
  (v.1 / length_vector v, v.2.1 / length_vector v, v.2.2 / length_vector v)

/-- compas.geometry.distance_point_point_sqrd: squared Euclidean distance. -/
def distance_point_point_sqrd (a b : Point3) : ℝ :=
  (b.1 - a.1) ^ 2 + (b.2.1 - a.2.1) ^ 2 + (b.2.2 - a.2.2) ^ 2

/-- compas.geometry.closest_point_on_plane, translated from the compas
source: normalize the plane normal, evaluate the plane offset d at the
base point, compute the signed multiple k and walk back from the point. -/
noncomputable def closest_point_on_plane (point : Point3) (plane : Plane3) : Point3 :=
  let base := plane.1
  let n := normalize_vector plane.2
  let d := n.1 * base.1 + n.2.1 * base.2.1 + n.2.2 * base.2.2
  let k := (n.1 * point.1 + n.2.1 * point.2.1 + n.2.2 * point.2.2 - d) /
    (n.1 ^ 2 + n.2.1 ^ 2 + n.2.2 ^ 2)
  (point.1 - k * n.1, point.2.1 - k * n.2.1, point.2.2 - k * n.2.2)

/-- Spec-side definition, for comparison with the code: the orthogonal
projection of a point onto the plane through base with normal n, namely
p - ((n . (p - base)) / (n . n)) n. -/
noncomputable def orth_projection (p : Point3) (plane : Plane3) : Point3 :=
  let base := plane.1
  let n := plane.2
  let t := dot3 n (sub3 p base) / dot3 n n
  (p.1 - t * n.1, p.2.1 - t * n.2.1, p.2.2 - t * n.2.2)

/-- The data mapping handed to goals by the optimizer: the per-node
position map stored under the node_xyz key of the form data. -/
structure FormData where
  node_xyz : Nat → Point3

/-- PlaneGoal from src/compas_cem/optimization/goals/plane.py. The Goal
base class (not under src/) stores the node key and the target plane
passed to the constructor; plane.py reads them through key() and
self._target. -/
structure PlaneGoal where
  node : Nat
  _target : Plane3

/-- Goal.key: the stored node key. -/
def PlaneGoal.key (g : PlaneGoal) : Nat := g.node

/-- PlaneGoal.reference: the xyz position of the goal node in the form data. -/
def PlaneGoal.reference (g : PlaneGoal) (data : FormData) : Point3 :=
  data.node_xyz g.key

/-- PlaneGoal.target: the closest point on the stored target plane. -/
noncomputable def PlaneGoal.target (g : PlaneGoal) (point : Point3) : Point3 :=
  closest_point_on_plane point g._target

/-- PlaneGoal.error: the squared distance between the node position and
its closest point on the target plane, computed through reference and
target exactly as in the source. -/
noncomputable def PlaneGoal.error (g : PlaneGoal) (data : FormData) : ℝ :=
  distance_point_point_sqrd (g.reference data) (g.target (g.reference data))

lemma dot3_self_nonneg (v : Point3) : 0 ≤ dot3 v v := by
  obtain ⟨a, b, c⟩ := v
  have : (0:ℝ) ≤ a * a + b * b + c * c := by
    nlinarith [mul_self_nonneg a, mul_self_nonneg b, mul_self_nonneg c]
  simpa [dot3] using this

lemma dot3_self_pos {v : Point3} (h : v ≠ ((0 : ℝ), (0 : ℝ), (0 : ℝ))) :
    0 < dot3 v v := by
  obtain ⟨a, b, c⟩ := v
  have hna : a * a + b * b + c * c ≠ 0 := by
    intro h0
    apply h
    have h1 : a = 0 := by nlinarith [mul_self_nonneg a, mul_self_nonneg b, mul_self_nonneg c]
    have h2 : b = 0 := by nlinarith [mul_self_nonneg a, mul_self_nonneg b, mul_self_nonneg c]
    have h3 : c = 0 := by nlinarith [mul_self_nonneg a, mul_self_nonneg b, mul_self_nonneg c]
    simp [h1, h2, h3]
  have hge : (0:ℝ) ≤ a * a + b * b + c * c := by
    nlinarith [mul_self_nonneg a, mul_self_nonneg b, mul_self_nonneg c]
  have : (0:ℝ) < a * a + b * b + c * c := lt_of_le_of_ne hge (Ne.symm hna)
  simpa [dot3] using this

/-- The compas closest point (normalize, offset, divide by the squared
normalized normal) agrees with the textbook orthogonal projection whenever
the plane normal is nonzero. -/
lemma closest_point_on_plane_eq_orth_projection (p : Point3) (plane : Plane3)
    (h : plane.2 ≠ ((0 : ℝ), (0 : ℝ), (0 : ℝ))) :
    closest_point_on_plane p plane = orth_projection p plane := by
  obtain ⟨base, n⟩ := plane
  obtain ⟨n1, n2, n3⟩ := n
  obtain ⟨b1, b2, b3⟩ := base
  obtain ⟨p1, p2, p3⟩ := p
  have hs : 0 < dot3 (n1, n2, n3) (n1, n2, n3) := dot3_self_pos h
  have hs' : (0:ℝ) < n1 * n1 + n2 * n2 + n3 * n3 := by simpa [dot3] using hs
  set l : ℝ := length_vector (n1, n2, n3) with hl
  have hlpos : 0 < l := by
    rw [hl]
    unfold length_vector
    exact Real.sqrt_pos.mpr hs
  have hl0 : l ≠ 0 := ne_of_gt hlpos
  have hl2 : l ^ 2 = n1 * n1 + n2 * n2 + n3 * n3 := by
    rw [hl]
    unfold length_vector
    rw [Real.sq_sqrt hs.le]
    simp [dot3]
  have hden : (n1 / l) ^ 2 + (n2 / l) ^ 2 + (n3 / l) ^ 2 = 1 := by
    field_simp
    linarith [hl2]
  show closest_point_on_plane (p1, p2, p3) ((b1, b2, b3), (n1, n2, n3)) =
    orth_projection (p1, p2, p3) ((b1, b2, b3), (n1, n2, n3))
  unfold closest_point_on_plane orth_projection normalize_vector
  simp only [← hl]
  rw [hden]
  have hsne : n1 * n1 + n2 * n2 + n3 * n3 ≠ 0 := ne_of_gt hs'
  simp only [dot3, sub3]
  refine Prod.ext ?_ (Prod.ext ?_ ?_) <;>
    · show _ = _
      rw [← hl2]
      field_simp
      ring

/-- Node attribute record with the default schema installed by
Diagram.__init__: position x y z, load qx qy qz, reaction rx ry rz all
0.0, the trail ordinal _k unset and the type tag unset. -/
structure NodeAttr where
  x : ℚ
  y : ℚ
  z : ℚ
  qx : ℚ
  qy : ℚ
  qz : ℚ
  rx : ℚ
  ry : ℚ
  rz : ℚ
  _k : Option Nat
  type : Option String
deriving DecidableEq

/-- The default node attributes of Diagram.__init__. -/
def default_node_attr : NodeAttr :=
  { x := 0, y := 0, z := 0, qx := 0, qy := 0, qz := 0,
    rx := 0, ry := 0, rz := 0, _k := none, type := none }

/-- Edge attribute record with the default schema installed by
Diagram.__init__: type unset, length 0.0, force 0.0. -/
structure EdgeAttr where
  type : Option String
  length : ℚ
  force : ℚ
deriving DecidableEq

/-- The default edge attributes of Diagram.__init__. -/
def default_edge_attr : EdgeAttr := { type := none, length := 0, force := 0 }

/-- The Diagram of src/compas_cem/diagrams/diagram.py, over the attributed
graph store of the external compas Network: an association list of node
attributes, an association list of edge attributes, the gkey_node map and
the tol attribute of the constructor. -/
structure Diagram where
  node_list : List (Nat × NodeAttr)
  edge_list : List ((Nat × Nat) × EdgeAttr)
  gkey_node : List (String × Nat)
  tol_attr : String
deriving DecidableEq

/-- Diagram.__init__: an empty network with the default attribute schemas,
gkey_node set to the empty map and the tol attribute set to "3f". -/
def Diagram.init : Diagram :=
  { node_list := [], edge_list := [], gkey_node := [], tol_attr := "3f" }

/-- First-match association list lookup (the network attribute store). -/
def lookupOpt {κ α : Type} [DecidableEq κ] : List (κ × α) → κ → Option α
  | [], _ => none
  | (k, a) :: t, key => if key = k then some a else lookupOpt t key

/-- The attribute record of a node: the stored record, or the default
schema for a key the store has no record for. -/
def Diagram.node_attr (d : Diagram) (n : Nat) : NodeAttr :=
  (lookupOpt d.node_list n).getD default_node_attr

/-- The attribute record of an edge. -/
def Diagram.edge_attr (d : Diagram) (e : Nat × Nat) : EdgeAttr :=
  (lookupOpt d.edge_list e).getD default_edge_attr

/-- The node keys of the diagram, in insertion order (Network.nodes()). -/
def Diagram.node_keys (d : Diagram) : List Nat := d.node_list.map Prod.fst

/-- The edge keys of the diagram, in insertion order (Network.edges()). -/
def Diagram.edge_keys (d : Diagram) : List (Nat × Nat) := d.edge_list.map Prod.fst

/-- Network.add_node without explicit attribute values: the new node gets
the default attribute schema. -/
def Diagram.add_node (d : Diagram) (n : Nat) : Diagram :=
  { d with node_list := d.node_list ++ [(n, default_node_attr)] }

/-- Network.add_edge without explicit attribute values: the new edge gets
the default attribute schema. -/
def Diagram.add_edge (d : Diagram) (e : Nat × Nat) : Diagram :=
  { d with edge_list := d.edge_list ++ [(e, default_edge_attr)] }

/-- The tol property: returns the stored tol attribute. -/
def Diagram.tol (d : Diagram) : String := d.tol_attr

/-- Diagram.node_load: the qx, qy, qz attributes of a node. -/
def Diagram.node_load (d : Diagram) (n : Nat) : ℚ × ℚ × ℚ :=
  ((d.node_attr n).qx, (d.node_attr n).qy, (d.node_attr n).qz)

/-- Diagram.reaction_force: the rx, ry, rz attributes of a node. -/
def Diagram.reaction_force (d : Diagram) (n : Nat) : ℚ × ℚ × ℚ :=
  ((d.node_attr n).rx, (d.node_attr n).ry, (d.node_attr n).rz)

/-- Diagram.edge_force: the force attribute of an edge. -/
def Diagram.edge_force (d : Diagram) (e : Nat × Nat) : ℚ := (d.edge_attr e).force

/-- Diagram.edge_length_2: the stored length attribute of an edge. -/
def Diagram.edge_length_2 (d : Diagram) (e : Nat × Nat) : ℚ := (d.edge_attr e).length

/-- Diagram.is_node_support: the type attribute equals "support". -/
def Diagram.is_node_suppo (d : Diagram) (n : Nat) : Prop :=
  (d.node_attr n).type = some "support"

/-- compas.geometry.length_vector applied to a rational load triple:
the Euclidean norm, as a real number. -/
noncomputable def length_vector_q (v : ℚ × ℚ × ℚ) : ℝ :=
  Real.sqrt ((v.1 : ℝ) * (v.1 : ℝ) + (v.2.1 : ℝ) * (v.2.1 : ℝ) + (v.2.2 : ℝ) * (v.2.2 : ℝ))

/-- The default minimum force threshold of loaded_nodes and
is_node_loaded. -/
noncomputable def DEFAULT_MIN_FORCE : ℝ := 1e-6

/-- Diagram.is_node_loaded: the Euclidean length of the node load is
strictly greater than the threshold. -/
def Diagram.is_node_loaded (d : Diagram) (n : Nat) (min_force : ℝ) : Prop :=
  length_vector_q (d.node_load n) > min_force

/-- Diagram.loaded_nodes: iterate over the nodes and yield those for
which is_node_loaded holds at the given threshold. -/
noncomputable def Diagram.loaded_nodes (d : Diagram) (min_force : ℝ) : List Nat :=
  d.node_keys.filter (fun n => @decide (d.is_node_loaded n min_force) (Classical.propDecidable _))

/-- Diagram.number_of_loaded_nodes: the length of the loaded_nodes list
at the default threshold. -/
noncomputable def Diagram.number_of_loaded_nodes (d : Diagram) : Nat :=
  (d.loaded_nodes DEFAULT_MIN_FORCE).length

/-- Componentwise sum of rational force triples. -/
def qadd3 (u v : ℚ × ℚ × ℚ) : ℚ × ℚ × ℚ := (u.1 + v.1, u.2.1 + v.2.1, u.2.2 + v.2.2)

/-- Componentwise negation of a rational force triple. -/
def qneg3 (u : ℚ × ℚ × ℚ) : ℚ × ℚ × ℚ := (-u.1, -u.2.1, -u.2.2)

/-- Sum of a list of rational force triples. -/
def qsum3 (l : List (ℚ × ℚ × ℚ)) : ℚ × ℚ × ℚ := l.foldr qadd3 (0, 0, 0)

/-- The force an edge exerts on a node, for a given assignment F of one
force vector per edge (F e acts on the first endpoint, its negation on
the second, nothing on other nodes). -/
def edge_end_force (F : Nat × Nat → ℚ × ℚ × ℚ) (e : Nat × Nat) (n : Nat) : ℚ × ℚ × ℚ :=
  if e.1 = n then F e else if e.2 = n then qneg3 (F e) else (0, 0, 0)

/-- The sum of all forces other than the reaction acting at a node: the
incident edge forces under the assignment F plus the applied load. -/
def Diagram.node_other_forces (d : Diagram) (F : Nat × Nat → ℚ × ℚ × ℚ) (n : Nat) :
    ℚ × ℚ × ℚ :=
  qadd3 (qsum3 (d.edge_keys.map (fun e => edge_end_force F e n))) (d.node_load n)

/-- The per-node update the solver applies to support nodes: write the
negated sum of all other forces into rx, ry, rz; leave other nodes
untouched. -/
def support_reaction_update (d : Diagram) (F : Nat × Nat → ℚ × ℚ × ℚ) (n : Nat)
    (a : NodeAttr) : NodeAttr :=
  if a.type = some "support" then
    { a with rx := (qneg3 (d.node_other_forces F n)).1,
             ry := (qneg3 (d.node_other_forces F n)).2.1,
             rz := (qneg3 (d.node_other_forces F n)).2.2 }
  else a

/-- Modelled from the spec: the equilibrium solver (static_equilibrium,
force_equilibrium) is not under src/. Per the spec it produces a form in
which the reaction vectors of the support nodes are populated with the
unresolved residual, the negative of the sum of all other forces and
loads at the node, for the edge force vectors F it computed; all other
attributes are carried over from the input diagram. -/
def static_equilibrium_form (d : Diagram) (F : Nat × Nat → ℚ × ℚ × ℚ) : Diagram :=
  { d with node_list := d.node_list.map (fun p => (p.1, support_reaction_update d F p.1 p.2)) }

/-- A store of diagram objects: object identities are addresses below
next, and mem gives the diagram held at each address. -/
structure DiagramStore where
  next : Nat
  mem : Nat → Diagram

/-- Modelled from the spec: the equilibrium solver is not under src/. Per
the spec it returns a new, distinct diagram object (the form) and never
mutates the input topology in place. In the store model it reads the
topology at address i, allocates the computed form at the fresh address
next, and returns that address. -/
def static_equilibrium_alloc (s : DiagramStore) (i : Nat) (F : Nat × Nat → ℚ × ℚ × ℚ) :
    DiagramStore × Nat :=
  ({ next := s.next + 1,
     mem := fun j => if j = s.next then static_equilibrium_form (s.mem i) F else s.mem j },
   s.next)

/-- objective_function_numpy from
src/compas_cem/optimization/objective_func.py: if the gradient buffer is
nonempty, overwrite it with grad_func evaluated at x; then return
x_func x. The result is the pair (returned value, final gradient
buffer). -/
def objective_function_numpy (x grad : List ℚ) (x_func : List ℚ → ℚ)
    (grad_func : List ℚ → List ℚ → List ℚ) : ℚ × List ℚ :=
  let grad1 := if 0 < grad.length then grad_func x grad else grad
  let fx := x_func x
  (fx, grad1)

/-- C1: for every form data map that assigns the goal node a position,
and a target plane with nonzero normal, PlaneGoal.error equals the
squared distance between the node position reference(data) and the
orthogonal projection of that position onto the target plane, and the
error is computed through the two methods reference and target. -/
theorem C1_plane_goal_error_is_sq_dist_to_projection (g : PlaneGoal) (data : FormData)
    (h : g._target.2 ≠ ((0 : ℝ), (0 : ℝ), (0 : ℝ))) :
    g.error data =
      distance_point_point_sqrd (g.reference data)
        (orth_projection (g.reference data) g._target)
    ∧ g.error data =
      distance_point_point_sqrd (g.reference data) (g.target (g.reference data)) := by
  constructor
  · unfold PlaneGoal.error PlaneGoal.target
    rw [closest_point_on_plane_eq_orth_projection _ _ h]
  · rfl

/-- Witness for C1: node 5, plane through the origin with normal (0, 0, 2),
node position (1, 2, 3). -/
theorem C1_plane_goal_error_witness :
    ((((0 : ℝ), (0 : ℝ), (2 : ℝ)) : Point3) ≠ ((0 : ℝ), (0 : ℝ), (0 : ℝ)))
    ∧ PlaneGoal.error ⟨5, (((0 : ℝ), (0 : ℝ), (0 : ℝ)), ((0 : ℝ), (0 : ℝ), (2 : ℝ)))⟩
        ⟨fun _ => ((1 : ℝ), (2 : ℝ), (3 : ℝ))⟩ =
      distance_point_point_sqrd ((1 : ℝ), (2 : ℝ), (3 : ℝ))
        (orth_projection ((1 : ℝ), (2 : ℝ), (3 : ℝ))
          (((0 : ℝ), (0 : ℝ), (0 : ℝ)), ((0 : ℝ), (0 : ℝ), (2 : ℝ)))) := by
  have hne : ((((0 : ℝ), (0 : ℝ), (2 : ℝ))) : Point3) ≠ ((0 : ℝ), (0 : ℝ), (0 : ℝ)) := by
    intro hc
    have h2 := congrArg (fun q : Point3 => q.2.2) hc
    norm_num at h2
  exact ⟨hne, (C1_plane_goal_error_is_sq_dist_to_projection _ _ hne).1⟩

/-- C7: the plane goal error is a nonnegative real for every goal and
every form data map. -/
theorem C7_plane_goal_error_nonneg (g : PlaneGoal) (data : FormData) :
    0 ≤ g.error data := by
  unfold PlaneGoal.error distance_point_point_sqrd
  positivity

/-- C8: if the goal node position lies exactly on the target plane
(the plane normal is nonzero and orthogonal to the offset of the position
from the base point, so the position equals its own projection), the
plane goal error is zero. -/
theorem C8_plane_goal_error_zero_on_plane (g : PlaneGoal) (data : FormData)
    (hn : g._target.2 ≠ ((0 : ℝ), (0 : ℝ), (0 : ℝ)))
    (hp : dot3 g._target.2 (sub3 (g.reference data) g._target.1) = 0) :
    g.error data = 0 := by
  have hfix : g.target (g.reference data) = g.reference data := by
    unfold PlaneGoal.target
    rw [closest_point_on_plane_eq_orth_projection _ _ hn]
    simp [orth_projection, hp]
  unfold PlaneGoal.error
  rw [hfix]
  unfold distance_point_point_sqrd
  ring

/-- Witness for C8: node 7, plane through the origin with normal (0, 0, 1),
node position (1, 2, 0) lying on the plane. -/
theorem C8_plane_goal_error_zero_witness :
    (dot3 ((0 : ℝ), (0 : ℝ), (1 : ℝ))
        (sub3 ((1 : ℝ), (2 : ℝ), (0 : ℝ)) ((0 : ℝ), (0 : ℝ), (0 : ℝ))) = 0)
    ∧ PlaneGoal.error ⟨7, (((0 : ℝ), (0 : ℝ), (0 : ℝ)), ((0 : ℝ), (0 : ℝ), (1 : ℝ)))⟩
        ⟨fun _ => ((1 : ℝ), (2 : ℝ), (0 : ℝ))⟩ = 0 := by
  have hn : ((((0 : ℝ), (0 : ℝ), (1 : ℝ))) : Point3) ≠ ((0 : ℝ), (0 : ℝ), (0 : ℝ)) := by
    intro hc
    have h2 := congrArg (fun q : Point3 => q.2.2) hc
    norm_num at h2
  have hp : dot3 ((0 : ℝ), (0 : ℝ), (1 : ℝ))
      (sub3 ((1 : ℝ), (2 : ℝ), (0 : ℝ)) ((0 : ℝ), (0 : ℝ), (0 : ℝ))) = 0 := by
    norm_num [dot3, sub3]
  exact ⟨hp, C8_plane_goal_error_zero_on_plane _ _ hn hp⟩

/-- C2: objective_function_numpy returns exactly x_func x; when the
gradient buffer is nonempty it is overwritten with grad_func evaluated at
the same point x; when the buffer is empty it is left unchanged and
grad_func is never invoked (the result does not depend on grad_func). -/
theorem C2_objective_function_numpy_spec (x grad : List ℚ) (xf : List ℚ → ℚ)
    (gf gf2 : List ℚ → List ℚ → List ℚ) :
    (objective_function_numpy x grad xf gf).1 = xf x
    ∧ (0 < grad.length → (objective_function_numpy x grad xf gf).2 = gf x grad)
    ∧ (grad.length = 0 →
        (objective_function_numpy x grad xf gf).2 = grad
        ∧ objective_function_numpy x grad xf gf = objective_function_numpy x grad xf gf2) := by
  refine ⟨rfl, fun h => ?_, fun h => ?_⟩
  · simp [objective_function_numpy, h]
  · constructor
    · simp [objective_function_numpy, h]
    · simp [objective_function_numpy, h]

/-- Witness for C2: x = [2], nonempty gradient buffer [3], value function
sum, gradient function concatenation. -/
theorem C2_objective_function_numpy_witness :
    0 < ([(3 : ℚ)] : List ℚ).length
    ∧ (objective_function_numpy [(2 : ℚ)] [(3 : ℚ)] (fun l => l.sum)
        (fun a b => a ++ b)).2 = [(2 : ℚ)] ++ [(3 : ℚ)] := by
  constructor
  · decide
  · exact (C2_objective_function_numpy_spec [(2 : ℚ)] [(3 : ℚ)] (fun l => l.sum)
      (fun a b => a ++ b) (fun a b => a ++ b)).2.1 (by decide)

/-- C5: a node added to a freshly constructed Diagram without explicit
attribute values reads x, y, z, qx, qy, qz, rx, ry, rz as 0.0 and type as
unset; an edge added without explicit attribute values reads force and
length as 0.0 and type as unset. -/
theorem C5_default_attribute_schema (k u v : Nat) :
    ((Diagram.init.add_node k).node_attr k).x = 0
    ∧ ((Diagram.init.add_node k).node_attr k).y = 0
    ∧ ((Diagram.init.add_node k).node_attr k).z = 0
    ∧ ((Diagram.init.add_node k).node_attr k).qx = 0
    ∧ ((Diagram.init.add_node k).node_attr k).qy = 0
    ∧ ((Diagram.init.add_node k).node_attr k).qz = 0
    ∧ ((Diagram.init.add_node k).node_attr k).rx = 0
    ∧ ((Diagram.init.add_node k).node_attr k).ry = 0
    ∧ ((Diagram.init.add_node k).node_attr k).rz = 0
    ∧ ((Diagram.init.add_node k).node_attr k).type = none
    ∧ ((((Diagram.init.add_node u).add_node v).add_edge (u, v)).edge_attr (u, v)).force = 0
    ∧ ((((Diagram.init.add_node u).add_node v).add_edge (u, v)).edge_attr (u, v)).length = 0
    ∧ ((((Diagram.init.add_node u).add_node v).add_edge (u, v)).edge_attr (u, v)).type = none := by
  have hnode : (Diagram.init.add_node k).node_attr k = default_node_attr := by
    simp [Diagram.init, Diagram.add_node, Diagram.node_attr, lookupOpt]
  have hedge : (((Diagram.init.add_node u).add_node v).add_edge (u, v)).edge_attr (u, v) =
      default_edge_attr := by
    simp [Diagram.init, Diagram.add_node, Diagram.add_edge, Diagram.edge_attr, lookupOpt]
  rw [hnode, hedge]
  exact ⟨rfl, rfl, rfl, rfl, rfl, rfl, rfl, rfl, rfl, rfl, rfl, rfl, rfl⟩

/-- C9: on a freshly constructed Diagram the tol property returns the
string "3f" assigned in the constructor, which is not the text of the
numeric value 0.001 announced in the property docstring. -/
theorem C9_tol_returns_string_3f :
    Diagram.init.tol = "3f" ∧ Diagram.init.tol ≠ "0.001" := by
  constructor
  · rfl
  · decide

/-- C10: edge_length_2 returns the stored length edge attribute, 0 for an
edge whose length was never set, and two diagrams with the same edge store
(in particular diagrams that differ only in node positions) yield the same
edge_length_2 at every edge. -/
theorem C10_edge_length_2_reads_stored_attribute (d d2 : Diagram) (e : Nat × Nat)
    (u v : Nat) (h : d.edge_list = d2.edge_list) :
    d.edge_length_2 e = (d.edge_attr e).length
    ∧ d.edge_length_2 e = d2.edge_length_2 e
    ∧ (((Diagram.init.add_node u).add_node v).add_edge (u, v)).edge_length_2 (u, v) = 0 := by
  refine ⟨rfl, ?_, ?_⟩
  · unfold Diagram.edge_length_2 Diagram.edge_attr
    rw [h]
  · simp [Diagram.init, Diagram.add_node, Diagram.add_edge, Diagram.edge_length_2,
      Diagram.edge_attr, lookupOpt, default_edge_attr]

/-- Witness for C10: two one-node diagrams sharing the edge store but
holding different node positions. -/
theorem C10_edge_length_2_witness :
    ((⟨[(0, { default_node_attr with x := 1 })],
        [((0, 1), { default_edge_attr with length := 4 })], [], "3f"⟩ : Diagram).edge_list =
      (⟨[(0, { default_node_attr with x := 9 })],
        [((0, 1), { default_edge_attr with length := 4 })], [], "3f"⟩ : Diagram).edge_list)
    ∧ (⟨[(0, { default_node_attr with x := 1 })],
        [((0, 1), { default_edge_attr with length := 4 })], [], "3f"⟩ : Diagram).edge_length_2 (0, 1) =
      (⟨[(0, { default_node_attr with x := 9 })],
        [((0, 1), { default_edge_attr with length := 4 })], [], "3f"⟩ : Diagram).edge_length_2 (0, 1) := by
  refine ⟨rfl, (C10_edge_length_2_reads_stored_attribute _ _ (0, 1) 0 1 rfl).2.1⟩

/-- C3: a node of the diagram is yielded by loaded_nodes exactly when the
Euclidean length of its load vector is strictly greater than the
threshold; the default threshold is 1e-6 and number_of_loaded_nodes counts
the nodes satisfying the predicate at the default threshold. -/
theorem C3_loaded_nodes_spec (d : Diagram) (min_force : ℝ) (n : Nat)
    (hn : n ∈ d.node_keys) :
    (n ∈ d.loaded_nodes min_force ↔ length_vector_q (d.node_load n) > min_force)
    ∧ DEFAULT_MIN_FORCE = 1e-6
    ∧ d.number_of_loaded_nodes =
        d.node_keys.countP
          (fun m => @decide (d.is_node_loaded m DEFAULT_MIN_FORCE) (Classical.propDecidable _)) := by
  refine ⟨?_, rfl, ?_⟩
  · unfold Diagram.loaded_nodes
    rw [List.mem_filter]
    constructor
    · rintro ⟨-, hp⟩
      exact @of_decide_eq_true _ (Classical.propDecidable _) hp
    · intro hp
      exact ⟨hn, @decide_eq_true _ (Classical.propDecidable _) hp⟩
  · unfold Diagram.number_of_loaded_nodes Diagram.loaded_nodes
    exact (List.countP_eq_length_filter _ _).symm

/-- Witness for C3: a one-node diagram with load (1, 0, 0) at node 0 and
threshold 0. -/
theorem C3_loaded_nodes_witness :
    (0 ∈ (⟨[(0, { default_node_attr with qx := 1 })], [], [], "3f"⟩ : Diagram).node_keys)
    ∧ (0 ∈ (⟨[(0, { default_node_attr with qx := 1 })], [], [], "3f"⟩ : Diagram).loaded_nodes 0 ↔
        length_vector_q
          ((⟨[(0, { default_node_attr with qx := 1 })], [], [], "3f"⟩ : Diagram).node_load 0) > 0) := by
  refine ⟨by decide, (C3_loaded_nodes_spec _ 0 0 (by decide)).1⟩

lemma lookupOpt_map_key_preserving {κ α β : Type} [DecidableEq κ] (g : κ → α → β)
    (l : List (κ × α)) (key : κ) :
    lookupOpt (l.map (fun p => (p.1, g p.1 p.2))) key = (lookupOpt l key).map (g key) := by
  induction l with
  | nil => rfl
  | cons p t ih =>
      obtain ⟨k, a⟩ := p
      by_cases hk : key = k
      · subst hk
        simp [lookupOpt]
      · simp [lookupOpt, hk, ih]

/-- C6: in a form produced by the equilibrium solver, the reaction vector
reported by reaction_force at a support node equals the negative of the
sum of all other forces and loads acting at that node, so that the force
balance at the support closes exactly once the reaction is included. -/
theorem C6_reaction_closes_balance (d : Diagram) (F : Nat × Nat → ℚ × ℚ × ℚ) (n : Nat)
    (h : (d.node_attr n).type = some "support") :
    (static_equilibrium_form d F).reaction_force n = qneg3 (d.node_other_forces F n)
    ∧ qadd3 ((static_equilibrium_form d F).reaction_force n) (d.node_other_forces F n)
        = (0, 0, 0) := by
  have hattr : (static_equilibrium_form d F).node_attr n =
      support_reaction_update d F n (d.node_attr n) := by
    unfold static_equilibrium_form Diagram.node_attr
    rw [lookupOpt_map_key_preserving]
    cases hl : lookupOpt d.node_list n with
    | none => simp [support_reaction_update, default_node_attr]
    | some a => simp
  have hup : support_reaction_update d F n (d.node_attr n) =
      { d.node_attr n with
        rx := (qneg3 (d.node_other_forces F n)).1
        ry := (qneg3 (d.node_other_forces F n)).2.1
        rz := (qneg3 (d.node_other_forces F n)).2.2 } := by
    unfold support_reaction_update
    rw [if_pos h]
  have hre : (static_equilibrium_form d F).reaction_force n =
      qneg3 (d.node_other_forces F n) := by
    unfold Diagram.reaction_force
    rw [hattr, hup]
  refine ⟨hre, ?_⟩
  rw [hre]
  obtain ⟨w1, w2, w3⟩ := d.node_other_forces F n
  simp [qadd3, qneg3]

/-- Witness for C6: a diagram with one support node carrying load
(2, 0, 0), one incident edge and the edge force assignment that puts
(1, 0, 0) on every edge. -/
theorem C6_reaction_closes_balance_witness :
    (((⟨[(0, { default_node_attr with type := some "support", qx := 2 })],
        [((0, 1), default_edge_attr)], [], "3f"⟩ : Diagram).node_attr 0).type = some "support")
    ∧ (static_equilibrium_form
        (⟨[(0, { default_node_attr with type := some "support", qx := 2 })],
          [((0, 1), default_edge_attr)], [], "3f"⟩ : Diagram)
        (fun _ => ((1 : ℚ), (0 : ℚ), (0 : ℚ)))).reaction_force 0 =
      qneg3 ((⟨[(0, { default_node_attr with type := some "support", qx := 2 })],
          [((0, 1), default_edge_attr)], [], "3f"⟩ : Diagram).node_other_forces
        (fun _ => ((1 : ℚ), (0 : ℚ), (0 : ℚ))) 0) := by
  refine ⟨by decide, (C6_reaction_closes_balance _ _ 0 (by decide)).1⟩

/-- C4: running the spec-modelled equilibrium solver on the topology held
at a valid store address returns the form at a fresh, distinct address;
the input topology and every one of its node and edge attributes are
unchanged, and the fresh address holds the computed form. -/
theorem C4_solver_returns_fresh_diagram (s : DiagramStore) (i : Nat)
    (F : Nat × Nat → ℚ × ℚ × ℚ) (h : i < s.next) :
    (static_equilibrium_alloc s i F).2 ≠ i
    ∧ (static_equilibrium_alloc s i F).1.mem i = s.mem i
    ∧ (∀ n, ((static_equilibrium_alloc s i F).1.mem i).node_attr n = (s.mem i).node_attr n)
    ∧ (∀ e, ((static_equilibrium_alloc s i F).1.mem i).edge_attr e = (s.mem i).edge_attr e)
    ∧ (static_equilibrium_alloc s i F).1.mem (static_equilibrium_alloc s i F).2 =
        static_equilibrium_form (s.mem i) F := by
  have hine : i ≠ s.next := Nat.ne_of_lt h
  have hmem : (static_equilibrium_alloc s i F).1.mem i = s.mem i := by
    simp [static_equilibrium_alloc, hine]
  refine ⟨hine.symm, hmem, fun n => by rw [hmem], fun e => by rw [hmem], ?_⟩
  simp [static_equilibrium_alloc]

/-- Witness for C4: a store holding one diagram at address 0, solved with
the zero edge force assignment. -/
theorem C4_solver_returns_fresh_diagram_witness :
    (0 < (⟨1, fun _ => Diagram.init⟩ : DiagramStore).next)
    ∧ (static_equilibrium_alloc (⟨1, fun _ => Diagram.init⟩ : DiagramStore) 0
        (fun _ => ((0 : ℚ), (0 : ℚ), (0 : ℚ)))).2 ≠ 0 := by
  refine ⟨by decide, (C4_solver_returns_fresh_diagram _ 0 _ (by decide)).1⟩
